import Mathlib

/- Verification of the IVECGuard fleet-monitoring system: a shallow embedding
of the resilient telemetry sync and authenticated command channel implemented
in src/agent.py (class IVECGuardAgent) and src/server.py (FastAPI endpoints),
together with theorems settling the specified properties.

Modelling conventions:
* The offline buffer file is a list of lines (each line without its trailing
  newline); a missing file is modelled as the empty list.
* python json.loads is an uninterpreted parameter parse : String -> Option Event
  (none = the call raises); json.dumps is a parameter dumps : Event -> String.
* HMAC-SHA256 hexdigest is an uninterpreted keyed digest parameter
  H : String -> String -> String (secret, message -> hex digest); the code under
  study only builds the message, feeds it to the digest and compares digests,
  which is exactly what is embedded.
* Machine integers do not overflow in the python source, so scores and weights
  are Int; datetimes are compared only with <, so timestamps are Int. -/

namespace IVECGuard

/-- A telemetry event as built by IVECGuardAgent.log_event in src/agent.py:
a dict with keys type, description, weight, metadata. Metadata is an opaque
key-value map, modelled as an association list. -/
structure Event where
  type : String
  description : String
  weight : Int
  metadata : List (String × String)
  deriving DecidableEq

/-- python str.strip() on the character list: drop leading and trailing
whitespace. Structurally recursive so that concrete instances evaluate. -/
def stripChars (cs : List Char) : List Char :=
  ((cs.dropWhile Char.isWhitespace).reverse.dropWhile Char.isWhitespace).reverse

/-- python str.strip(): remove leading and trailing whitespace characters. -/
def pyStrip (s : String) : String :=
  ⟨stripChars s.data⟩

/-- The loop body of IVECGuardAgent._load_offline over the lines that survive
the cap check (the loop breaks at i >= max_lines, so only the first max_lines
lines are ever processed). Each line is stripped; blank lines are skipped with
continue; the rest are fed to json.loads. A parse failure raises, and the
exception is caught OUTSIDE the loop by the except branch that returns [],
so the whole read is aborted: this is modelled by returning none. -/
def loadLines (parse : String → Option Event) : List String → Option (List Event)
  | [] => some []
  | l :: ls =>
    let t := pyStrip l
    if t = "" then loadLines parse ls
    else
      match parse t with
      | none => none
      | some e => (loadLines parse ls).map (fun es => e :: es)

/-- IVECGuardAgent._load_offline (src/agent.py lines 81-96): read at most
maxLines lines of the offline jsonl file, strip each, skip blanks, json-parse
the rest; any exception makes the whole call return the empty list. -/
def load_offline (parse : String → Option Event) (maxLines : Nat)
    (file : List String) : List Event :=
  (loadLines parse (file.take maxLines)).getD []

/-- IVECGuardAgent._truncate_offline (src/agent.py lines 98-109): rewrite the
file as lines[consumed:]; a non-positive consumed count (or a missing file) is
a no-op. consumed is a python int, hence Int here. -/
def truncate_offline (consumed : Int) (file : List String) : List String :=
  if consumed ≤ 0 then file else file.drop consumed.toNat

/-- IVECGuardAgent._persist_offline (src/agent.py lines 72-79): append one
json.dumps line per event to the offline file. -/
def persist_offline (dumps : Event → String) (events : List Event)
    (file : List String) : List String :=
  file ++ events.map dumps

/-- The mutable agent state touched by the sync loop: the in-memory
event_queue list and the offline_events.jsonl file contents. -/
structure AgentState where
  event_queue : List Event
  offline_file : List String
  deriving DecidableEq

/-- The merged upload list built by one sync iteration (src/agent.py lines
182-184): merged = offline + event_queue[:], where offline is the capped head
of the buffer file. -/
def cycleUpload (parse : String → Option Event) (st : AgentState) : List Event :=
  load_offline parse 200 st.offline_file ++ st.event_queue

/-- One telemetry round of IVECGuardAgent.sync_loop restricted to its effect
on the agent state (src/agent.py lines 182-189 and 213-217). uploadOk says
whether the telemetry POST succeeds. On success the queue is cleared and, if
offline events were merged, that many lines are truncated from the buffer. On
failure (the POST raises) control reaches the except branch: a non-empty queue
is appended to the buffer via persist_offline and then cleared. -/
def syncCycle (parse : String → Option Event) (dumps : Event → String)
    (uploadOk : Bool) (st : AgentState) : AgentState :=
  let offline := load_offline parse 200 st.offline_file
  if uploadOk then
    { event_queue := []
      offline_file :=
        if offline.isEmpty then st.offline_file
        else truncate_offline (offline.length : Int) st.offline_file }
  else if st.event_queue.isEmpty then st
  else
    { event_queue := []
      offline_file := persist_offline dumps st.event_queue st.offline_file }

/-- The pipe-joined message both sides digest:
cmd_id | device_id | action | expires_at_iso (src/server.py line 84 and
src/agent.py line 62). -/
def commandMessage (cid did action exp : String) : String :=
  cid ++ "|" ++ did ++ "|" ++ action ++ "|" ++ exp

/-- server _sign_command (src/server.py lines 82-85): hex HMAC digest of the
pipe-joined command tuple under the shared secret. H is the uninterpreted
HMAC-SHA256 hexdigest. -/
def sign_command (H : String → String → String) (secret cid did action exp : String) :
    String :=
  H secret (commandMessage cid did action exp)

/-- A command as received by the agent from the poll endpoint: a dict whose
lookups cmd.get return none when the key is missing. -/
structure AgentCmd where
  id : Option String
  action : Option String
  expiresAt : Option String
  signature : Option String
  deriving DecidableEq

/-- Python truthiness of an optional string field: a missing key or an empty
string is falsy, so the check `if not (cid and action and expires_at and sig)`
in _verify_command treats an empty field like a missing one. -/
def pyTruthy : Option String → Bool
  | none => false
  | some s => !(s == "")

/-- IVECGuardAgent._verify_command (src/agent.py lines 53-66): reject when any
of id, action, expiresAt, signature is falsy; otherwise recompute the digest
of id | agent_id | action | expiresAt under the local secret and compare it
with the carried signature (hmac.compare_digest, i.e. string equality). -/
def verify_command (H : String → String → String) (secret agentId : String)
    (cmd : AgentCmd) : Bool :=
  if pyTruthy cmd.id && pyTruthy cmd.action && pyTruthy cmd.expiresAt
      && pyTruthy cmd.signature then
    sign_command H secret (cmd.id.getD "") agentId (cmd.action.getD "")
        (cmd.expiresAt.getD "") == cmd.signature.getD ""
  else false

/-- The per-command execution block of sync_loop (src/agent.py lines 198-206):
status starts as EXECUTED; a LOCK action invokes subprocess.run (subprocessOk
says whether that call returns without raising; on raise status becomes
FAILED); any other action sets status FAILED without touching the OS. The
Bool component records whether subprocess.run was invoked at all. -/
def runAction (subprocessOk : Bool) (action : String) : Bool × String :=
  if action = "LOCK" then (true, if subprocessOk then "EXECUTED" else "FAILED")
  else (false, "FAILED")

/-- The treatment of one polled command in sync_loop (src/agent.py lines
194-211): a command that fails _verify_command is skipped with no ack (none);
a verified command is executed via runAction and acked with the resulting
status (some (invokedOS, ackStatus)). -/
def processCommand (H : String → String → String) (secret agentId : String)
    (subprocessOk : Bool) (cmd : AgentCmd) : Option (Bool × String) :=
  if verify_command H secret agentId cmd then
    some (runAction subprocessOk (cmd.action.getD ""))
  else none

/-- The columns of the devices table touched by the telemetry path
(src/server.py lines 40-57, 156-170). -/
structure Device where
  id : String
  status : String
  risk_score : Int
  deriving DecidableEq

/-- One iteration of the event loop in receive_telemetry (src/server.py line
168): dev.risk_score = min(100, dev.risk_score + e.weight). -/
def ingestEvent (score w : Int) : Int := min 100 (score + w)

/-- The whole event loop of receive_telemetry folded over the batch of
submitted event weights. -/
def ingestBatch (score : Int) (weights : List Int) : Int :=
  weights.foldl ingestEvent score

/-- receive_telemetry restricted to its effect on the matched device
(src/server.py lines 156-170): status is set ONLINE and the risk score is
updated by the event loop. -/
def ingestDevice (d : Device) (weights : List Int) : Device :=
  { d with status := "ONLINE", risk_score := ingestBatch d.risk_score weights }

/-- A row of the commands table (src/server.py lines 70-79), with the columns
the lifecycle endpoints touch. expires_at and executed_at are timestamps. -/
structure Command where
  id : String
  device_id : String
  action : String
  status : String
  expires_at : Int
  executed_at : Option Int
  deriving DecidableEq

/-- issue_command (src/server.py lines 270-277): a new command row with status
PENDING (the column default) and expires_at = now + 5 minutes. -/
def issue_command (cid deviceId action : String) (now : Int) : Command :=
  { id := cid, device_id := deviceId, action := action, status := "PENDING"
    expires_at := now + 300, executed_at := none }

/-- The WHERE clause of the poll query (src/server.py lines 174-175):
device_id = agent_id AND status = PENDING AND expires_at > now. -/
def pollFilter (now : Int) (aid : String) (c : Command) : Bool :=
  c.device_id == aid && c.status == "PENDING" && decide (now < c.expires_at)

/-- poll_commands (src/server.py lines 172-187): select the matching rows,
return them, and set the status of exactly those rows to SENT. The result is
(returned commands, commands table afterwards); the returned rows are also
signed on the way out, which does not change the store. -/
def poll_commands (now : Int) (aid : String) (store : List Command) :
    List Command × List Command :=
  (store.filter (pollFilter now aid),
   store.map (fun c => if pollFilter now aid c then { c with status := "SENT" } else c))

/-- ack_command (src/server.py lines 189-196): on the row with the given id
(if any), store the client-supplied status string, defaulting to EXECUTED when
the request body has no status key, and stamp executed_at; no check of the
previous status and no validation of the supplied string. -/
def ack_command (cid : String) (reqStatus : Option String) (now : Int)
    (store : List Command) : List Command :=
  store.map (fun c =>
    if c.id == cid then
      { c with status := reqStatus.getD "EXECUTED", executed_at := some now }
    else c)

/-- The store update performed by one poll call, for chaining polls. -/
def stepStore (p : Int × String) (s : List Command) : List Command :=
  (poll_commands p.1 p.2 s).2

/-- A sequence of poll calls (timestamp, agent id) applied to the commands
table in order. -/
def applyPolls (ps : List (Int × String)) (s : List Command) : List Command :=
  ps.foldl (fun s p => stepStore p s) s

/-! Concrete instances used by witnesses and counterexamples. -/

/-- Concrete event used on concrete buffers. -/
def evA : Event := ⟨"A", "a", 1, []⟩

/-- Concrete event used on concrete buffers. -/
def evB : Event := ⟨"B", "b", 2, []⟩

/-- Concrete event used on concrete buffers. -/
def evC : Event := ⟨"C", "c", 3, []⟩

/-- Concrete event used on concrete buffers. -/
def evD : Event := ⟨"D", "d", 4, []⟩

/-- Concrete stand-in for json.dumps on the events above: the serialized line
is the type field. -/
def dumpsW (e : Event) : String := e.type

/-- Concrete stand-in for json.loads inverting dumpsW on evA..evD; every other
line is malformed (the parse raises, i.e. none). -/
def parseW (s : String) : Option Event :=
  if s = "A" then some evA
  else if s = "B" then some evB
  else if s = "C" then some evC
  else if s = "D" then some evD
  else none

/-- Concrete 95-risk device for the clamp witnesses. -/
def device95 : Device := ⟨"dev-1", "ONLINE", 95⟩

/-! Helper lemmas on the offline buffer read. -/

/-- If some processed line is non-blank after stripping and fails to parse,
the whole loadLines pass aborts with none (the exception escapes the loop). -/
theorem loadLines_of_malformed (parse : String → Option Event) {l : String}
    {ls : List String} (hm : l ∈ ls) (ht : pyStrip l ≠ "")
    (hp : parse (pyStrip l) = none) : loadLines parse ls = none := by
  induction ls with
  | nil => cases hm
  | cons a as ih =>
    rcases List.mem_cons.mp hm with rfl | hmem
    · simp only [loadLines]
      rw [if_neg ht, hp]
    · simp only [loadLines]
      split
      · exact ih hmem
      · rw [ih hmem]
        split <;> rfl

/-- If every line is the serialization of its event, strips to itself
non-blank, and parses back, loadLines returns exactly the events in order. -/
theorem loadLines_roundtrip (parse : String → Option Event)
    (dumps : Event → String) :
    ∀ evs : List Event,
      (∀ e ∈ evs, pyStrip (dumps e) ≠ "" ∧ parse (pyStrip (dumps e)) = some e) →
      loadLines parse (evs.map dumps) = some evs := by
  intro evs h
  induction evs with
  | nil => rfl
  | cons e es ih =>
    have he := h e (List.mem_cons_self e es)
    simp only [List.map_cons, loadLines]
    rw [if_neg he.1, he.2, ih (fun x hx => h x (List.mem_cons_of_mem e hx))]
    rfl

/-- C1, counterexample: the buffer ["A", "?"] holds one well-formed line and
one malformed line within the cap. The claim says the read skips the malformed
line and still returns [evA]; the code instead catches the parse exception
outside the loop and returns [], discarding evA as well. -/
theorem load_offline_malformed_cex :
    load_offline parseW 200 ["A", "?"] = [] ∧
    load_offline parseW 200 ["A", "?"] ≠ [evA] := by
  constructor
  · decide
  · decide

/-- C1, amended: a malformed non-blank line within the cap never raises to the
caller, but rather than being skipped it aborts the whole read: load_offline
returns the empty list, and the events parsed from the other lines are
discarded with it (the lines stay in the file for later cycles). -/
theorem load_offline_malformed_aborts (parse : String → Option Event)
    (maxLines : Nat) (pre : List String) (l : String) (post : List String)
    (hlen : pre.length < maxLines) (ht : pyStrip l ≠ "")
    (hp : parse (pyStrip l) = none) :
    load_offline parse maxLines (pre ++ l :: post) = [] := by
  have hmem : l ∈ (pre ++ l :: post).take maxLines := by
    rw [List.take_append_eq_append_take]
    refine List.mem_append.mpr (Or.inr ?_)
    rcases Nat.exists_eq_add_of_lt hlen with ⟨n, hn⟩
    have hsub : maxLines - pre.length = n + 1 := by omega
    rw [hsub]
    exact List.mem_cons_self l _
  unfold load_offline
  rw [loadLines_of_malformed parse hmem ht hp]
  rfl

/-- C1 witness: the amended statement applied to the concrete buffer
["A"] ++ "?" :: []. -/
theorem load_offline_malformed_aborts_witness :
    (["A"] : List String).length < 200 ∧ pyStrip "?" ≠ "" ∧
    parseW (pyStrip "?") = none ∧
    load_offline parseW 200 (["A"] ++ "?" :: []) = [] :=
  ⟨by decide, by decide, by decide,
   load_offline_malformed_aborts parseW 200 ["A"] "?" []
     (by decide) (by decide) (by decide)⟩

/-! Risk score aggregation (C2, C3). -/

/-- Folding the per-event clamp over a batch keeps a score that starts at
most 100 at most 100. -/
theorem ingestBatch_le_100 :
    ∀ (ws : List Int) (s : Int), s ≤ 100 → ingestBatch s ws ≤ 100 := by
  intro ws
  induction ws with
  | nil => intro s h; exact h
  | cons w ws ih =>
    intro s _
    exact ih (min 100 (s + w)) (min_le_left _ _)

/-- C2: telemetry ingest adds each event weight to the stored risk score with
min(100, score + weight); starting from any stored score at most 100, the
score after ingesting any batch never exceeds 100. -/
theorem telemetry_risk_clamped (d : Device) (ws : List Int)
    (h : d.risk_score ≤ 100) : (ingestDevice d ws).risk_score ≤ 100 :=
  ingestBatch_le_100 ws d.risk_score h

/-- C2 witness: repeatedly ingesting weight-100 events on a device whose score
is 95 leaves the stored score at most 100. -/
theorem telemetry_risk_clamped_witness :
    device95.risk_score ≤ 100 ∧
    (ingestDevice device95 [100, 100, 100]).risk_score ≤ 100 :=
  ⟨by decide, telemetry_risk_clamped device95 [100, 100, 100] (by decide)⟩

/-- C3, counterexample: the telemetry endpoint accepts any integer weight
(pydantic int), and a batch holding one weight -10 event on a device with
stored score 50 lowers the stored score to 40, so the score is not
monotonically non-decreasing under arbitrary ingests. -/
theorem telemetry_monotone_cex :
    (ingestDevice ⟨"dev-1", "ONLINE", 50⟩ [-10]).risk_score = 40 ∧
    ¬ ((⟨"dev-1", "ONLINE", 50⟩ : Device).risk_score ≤
        (ingestDevice ⟨"dev-1", "ONLINE", 50⟩ [-10]).risk_score) := by
  constructor
  · show min 100 (50 + -10) = 40
    decide
  · show ¬ ((50 : Int) ≤ min 100 (50 + -10))
    decide

/-- The fold never lowers the score when every weight is nonnegative and the
starting score is at most 100. -/
theorem ingestBatch_mono_nonneg :
    ∀ (ws : List Int) (s : Int), s ≤ 100 → (∀ w ∈ ws, 0 ≤ w) →
      s ≤ ingestBatch s ws := by
  intro ws
  induction ws with
  | nil => intro s _ _; exact le_refl s
  | cons w ws ih =>
    intro s hs hw
    have hw0 : 0 ≤ w := hw w (List.mem_cons_self w ws)
    have hstep : s ≤ min 100 (s + w) := le_min hs (by linarith)
    have hrest : min 100 (s + w) ≤ ingestBatch (min 100 (s + w)) ws :=
      ih (min 100 (s + w)) (min_le_left _ _)
        (fun x hx => hw x (List.mem_cons_of_mem w hx))
    exact le_trans hstep hrest

/-- C3, amended: over batches in which every event weight is nonnegative (the
endpoint itself accepts arbitrary integers) and for a device whose stored
score is at most 100 (every score the server ever stores is), the stored risk
score after a telemetry ingest is at least the score before it. -/
theorem telemetry_monotone_nonneg (d : Device) (ws : List Int)
    (hw : ∀ w ∈ ws, 0 ≤ w) (h : d.risk_score ≤ 100) :
    d.risk_score ≤ (ingestDevice d ws).risk_score :=
  ingestBatch_mono_nonneg ws d.risk_score h hw

/-- C3 witness: the amended statement at the 95-risk device with two
weight-100 events. -/
theorem telemetry_monotone_nonneg_witness :
    (∀ w ∈ ([100, 100] : List Int), 0 ≤ w) ∧ device95.risk_score ≤ 100 ∧
    device95.risk_score ≤ (ingestDevice device95 [100, 100]).risk_score :=
  ⟨by decide, by decide,
   telemetry_monotone_nonneg device95 [100, 100] (by decide) (by decide)⟩

/-! Offline buffer truncation (C7). -/

/-- C7: truncating k of the m buffered lines removes exactly the first k lines
(lines[consumed:]), leaving m - k; truncating 0 more afterwards changes
nothing; truncating length + j lines leaves the empty file, with no error and
no negative count. -/
theorem truncate_offline_spec (k j : Nat) (file : List String) :
    truncate_offline (k : Int) file = file.drop k ∧
    (truncate_offline (k : Int) file).length = file.length - k ∧
    truncate_offline 0 (truncate_offline (k : Int) file) =
      truncate_offline (k : Int) file ∧
    truncate_offline ((file.length + j : Nat) : Int) file = [] := by
  have h1 : truncate_offline (k : Int) file = file.drop k := by
    unfold truncate_offline
    split
    · have hk : k = 0 := by omega
      subst hk; simp
    · simp
  refine ⟨h1, ?_, ?_, ?_⟩
  · rw [h1, List.length_drop]
  · unfold truncate_offline
    simp
  · unfold truncate_offline
    split
    · have hlen : file.length = 0 := by omega
      exact List.eq_nil_of_length_eq_zero hlen
    · rw [Int.toNat_natCast]
      exact List.drop_eq_nil_of_le (by omega)

/-! Sync cycle failure path (C9). -/

/-- C9: a sync cycle whose telemetry upload fails appends exactly the events
of the live in-memory queue to the offline buffer file (in order, after the
untouched existing backlog) and leaves the live queue empty; the persisted
backlog is neither truncated nor re-appended. -/
theorem sync_failure_spills (parse : String → Option Event)
    (dumps : Event → String) (st : AgentState) :
    syncCycle parse dumps false st =
      { event_queue := [],
        offline_file := st.offline_file ++ st.event_queue.map dumps } := by
  rcases st with ⟨q, f⟩
  cases q with
  | nil => simp [syncCycle, persist_offline]
  | cons a as => simp [syncCycle, persist_offline]

/-! Command lifecycle store (C4). -/

/-- The canonical command status set of the data model. -/
abbrev canonicalStatus (s : String) : Prop :=
  s = "PENDING" ∨ s = "SENT" ∨ s = "EXECUTED" ∨ s = "FAILED"

/-- A freshly issued PENDING command, used on concrete stores. -/
def cmdP : Command := issue_command "c1" "dev" "LOCK" 0

/-- C4, counterexample: ack_command stores the client-supplied status string
verbatim. Acking the PENDING command cmdP with status BANANA stores BANANA,
a status outside the canonical set, on a command that was never SENT. -/
theorem ack_command_cex :
    cmdP.status = "PENDING" ∧
    (ack_command "c1" (some "BANANA") 7 [cmdP]).map Command.status = ["BANANA"] ∧
    ¬ canonicalStatus "BANANA" := by
  refine ⟨rfl, by decide, by decide⟩

/-- C4, amended: issue_command creates commands with status PENDING and
poll_commands only rewrites the status of selected PENDING commands to SENT;
but ack_command performs no transition check at all: it stores the
client-supplied status string (defaulting to EXECUTED when absent) on the
matching command whatever its previous status, so statuses stay inside
{PENDING, SENT, EXECUTED, FAILED} only when every ack request carries
EXECUTED or FAILED or omits the field. -/
theorem command_lifecycle_amended :
    (∀ (cid did action : String) (now : Int),
      (issue_command cid did action now).status = "PENDING") ∧
    (∀ (now : Int) (aid : String) (s : List Command) (c : Command),
      c ∈ (poll_commands now aid s).2 →
      ∃ c0 ∈ s, c.id = c0.id ∧
        (c = c0 ∨ (c0.status = "PENDING" ∧ c = { c0 with status := "SENT" }))) ∧
    (∀ (cid : String) (reqStatus : Option String) (now : Int) (s : List Command),
      (∀ c ∈ s, canonicalStatus c.status) →
      canonicalStatus (reqStatus.getD "EXECUTED") →
      ∀ c ∈ ack_command cid reqStatus now s, canonicalStatus c.status) := by
  refine ⟨fun _ _ _ _ => rfl, ?_, ?_⟩
  · intro now aid s c hc
    rcases List.mem_map.mp hc with ⟨c0, hc0, hdc⟩
    by_cases hf : pollFilter now aid c0 = true
    · rw [if_pos hf] at hdc
      refine ⟨c0, hc0, ?_, Or.inr ⟨?_, hdc.symm⟩⟩
      · rw [← hdc]
      · simp only [pollFilter, Bool.and_eq_true, beq_iff_eq] at hf
        exact hf.1.2
    · rw [if_neg hf] at hdc
      exact ⟨c0, hc0, by rw [← hdc], Or.inl hdc.symm⟩
  · intro cid reqStatus now s hs hreq c hc
    rcases List.mem_map.mp hc with ⟨c0, hc0, hdc⟩
    by_cases hid : (c0.id == cid) = true
    · rw [if_pos hid] at hdc
      rw [← hdc]
      exact hreq
    · rw [if_neg hid] at hdc
      rw [← hdc]
      exact hs c0 hc0

/-- C4 witness: the amended statement applied to a fresh issue and to an ack
of cmdP with the well-behaved status FAILED. -/
theorem command_lifecycle_amended_witness :
    (issue_command "c9" "dev" "LOCK" 0).status = "PENDING" ∧
    (∀ c ∈ ([cmdP] : List Command), canonicalStatus c.status) ∧
    canonicalStatus ((some "FAILED").getD "EXECUTED") ∧
    canonicalStatus
      ({ cmdP with status := "FAILED", executed_at := some 7 } : Command).status := by
  refine ⟨command_lifecycle_amended.1 "c9" "dev" "LOCK" 0, by decide, by decide, ?_⟩
  exact command_lifecycle_amended.2.2 "c1" (some "FAILED") 7 [cmdP]
    (by decide) (by decide) _ (by decide)

/-! Command signing and verification (C5). -/

/-- C5: the verifier accepts exactly the commands whose four fields id,
action, expiresAt, signature are present (python truthiness: a missing key or
empty string is rejected) and whose signature equals the keyed digest of
id | agentId | action | expiresAt; hence a command signed by the server signer
over the same tuple under the same secret is accepted, and a command whose
action was tampered with after signing is rejected whenever the digests of the
two distinct messages differ (which is the collision-resistance assumption on
HMAC-SHA256). -/
theorem verify_command_spec :
    (∀ (H : String → String → String) (secret aid : String) (cmd : AgentCmd),
      verify_command H secret aid cmd = true ↔
        (pyTruthy cmd.id = true ∧ pyTruthy cmd.action = true ∧
         pyTruthy cmd.expiresAt = true ∧ pyTruthy cmd.signature = true ∧
         cmd.signature.getD "" =
           sign_command H secret (cmd.id.getD "") aid (cmd.action.getD "")
             (cmd.expiresAt.getD ""))) ∧
    (∀ (H : String → String → String) (secret cid aid action exp : String),
      cid ≠ "" → action ≠ "" → exp ≠ "" →
      sign_command H secret cid aid action exp ≠ "" →
      verify_command H secret aid
        ⟨some cid, some action, some exp,
         some (sign_command H secret cid aid action exp)⟩ = true) ∧
    (∀ (H : String → String → String) (secret cid aid action tampered exp : String),
      H secret (commandMessage cid aid tampered exp) ≠
        H secret (commandMessage cid aid action exp) →
      verify_command H secret aid
        ⟨some cid, some tampered, some exp,
         some (sign_command H secret cid aid action exp)⟩ = false) := by
  refine ⟨?_, ?_, ?_⟩
  · intro H secret aid cmd
    unfold verify_command
    constructor
    · intro h
      split at h
      · rename_i hcond
        simp only [Bool.and_eq_true] at hcond
        exact ⟨hcond.1.1.1, hcond.1.1.2, hcond.1.2, hcond.2, (eq_of_beq h).symm⟩
      · exact absurd h (by simp)
    · rintro ⟨h1, h2, h3, h4, h5⟩
      rw [if_pos (by rw [h1, h2, h3, h4]; rfl)]
      exact beq_iff_eq.mpr h5.symm
  · intro H secret cid aid action exp h1 h2 h3 h4
    unfold verify_command
    rw [if_pos]
    · exact beq_iff_eq.mpr rfl
    · simp only [pyTruthy, Option.getD_some, Bool.and_eq_true, Bool.not_eq_true',
        beq_eq_false_iff_ne]
      exact ⟨⟨⟨h1, h2⟩, h3⟩, h4⟩
  · intro H secret cid aid action tampered exp hne
    unfold verify_command
    split
    · simp only [Option.getD_some]
      exact beq_eq_false_iff_ne.mpr hne
    · rfl

/-- A concrete uninterpreted keyed digest used by witnesses. -/
def Hc (k m : String) : String := "d" ++ k ++ m

/-- C5 witness: under the digest Hc and secret sec, the command signed by the
server over (c1, dev, LOCK, t1) is accepted by the verifier, and the same
command with its action tampered to WIPE is rejected. -/
theorem verify_command_spec_witness :
    verify_command Hc "sec" "dev"
      ⟨some "c1", some "LOCK", some "t1",
       some (sign_command Hc "sec" "c1" "dev" "LOCK" "t1")⟩ = true ∧
    verify_command Hc "sec" "dev"
      ⟨some "c1", some "WIPE", some "t1",
       some (sign_command Hc "sec" "c1" "dev" "LOCK" "t1")⟩ = false :=
  ⟨verify_command_spec.2.1 Hc "sec" "c1" "dev" "LOCK" "t1" (by decide) (by decide)
     (by decide) (by decide),
   verify_command_spec.2.2 Hc "sec" "c1" "dev" "LOCK" "WIPE" "t1" (by decide)⟩

/-! Upload merge order (C6). -/

/-- C6: when the buffer file holds the serializations of bufEvents (each line
stripping to a non-blank string that parses back to its event) and the backlog
fits the 200-line cap, the upload list of a sync cycle is exactly
bufEvents ++ queue: the capped head of the buffer in file order, every offline
entry ahead of every live entry. -/
theorem cycle_upload_order (parse : String → Option Event)
    (dumps : Event → String) (bufEvents queue : List Event)
    (hb : ∀ e ∈ bufEvents,
      pyStrip (dumps e) ≠ "" ∧ parse (pyStrip (dumps e)) = some e)
    (hlen : bufEvents.length ≤ 200) :
    cycleUpload parse ⟨queue, bufEvents.map dumps⟩ = bufEvents ++ queue := by
  show load_offline parse 200 (bufEvents.map dumps) ++ queue = bufEvents ++ queue
  unfold load_offline
  rw [List.take_of_length_le (by simpa using hlen),
    loadLines_roundtrip parse dumps bufEvents hb]
  rfl

/-- C6 witness: after buffering A, B, C and queueing D, the cycle uploads
A, B, C, D in that order. -/
theorem cycle_upload_order_witness :
    ([evA, evB, evC] : List Event).length ≤ 200 ∧
    cycleUpload parseW ⟨[evD], [evA, evB, evC].map dumpsW⟩ =
      [evA, evB, evC, evD] :=
  ⟨by decide,
   cycle_upload_order parseW dumpsW [evA, evB, evC] [evD] (by decide) (by decide)⟩

/-! Poll endpoint (C8). -/

/-- No command with this id in the store has status PENDING. -/
def notPendingFor (i : String) (s : List Command) : Prop :=
  ∀ d ∈ s, d.id = i → d.status ≠ "PENDING"

/-- Unfolding the poll WHERE clause. -/
theorem pollFilter_eq_true {now : Int} {aid : String} {c : Command}
    (h : pollFilter now aid c = true) :
    c.device_id = aid ∧ c.status = "PENDING" ∧ now < c.expires_at := by
  simp only [pollFilter, Bool.and_eq_true, beq_iff_eq, decide_eq_true_eq] at h
  exact ⟨h.1.1, h.1.2, h.2⟩

/-- A poll store update never reintroduces a PENDING row for a given id. -/
theorem notPendingFor_step (i : String) (p : Int × String) (s : List Command)
    (h : notPendingFor i s) : notPendingFor i (stepStore p s) := by
  intro d hd hid
  rcases List.mem_map.mp hd with ⟨c0, hc0, hdc⟩
  by_cases hf : pollFilter p.1 p.2 c0 = true
  · rw [if_pos hf] at hdc
    rw [← hdc]
    show ("SENT" : String) ≠ "PENDING"
    decide
  · rw [if_neg hf] at hdc
    rw [← hdc] at hid ⊢
    exact h c0 hc0 hid

/-- A chain of poll store updates never reintroduces a PENDING row. -/
theorem notPendingFor_applyPolls (i : String) (ps : List (Int × String)) :
    ∀ s : List Command, notPendingFor i s → notPendingFor i (applyPolls ps s) := by
  induction ps with
  | nil => intro s h; exact h
  | cons p ps ih =>
    intro s h
    exact ih (stepStore p s) (notPendingFor_step i p s h)

/-- A poll on a store with no PENDING row for this id never returns it. -/
theorem not_returned_of_notPending (i : String) (now : Int) (aid : String)
    (s : List Command) (h : notPendingFor i s) :
    i ∉ ((poll_commands now aid s).1.map Command.id) := by
  intro hmem
  rcases List.mem_map.mp hmem with ⟨d, hd, hid⟩
  have hd2 := List.mem_filter.mp hd
  exact h d hd2.1 hid (pollFilter_eq_true hd2.2).2.1

/-- C8: over a commands table with unique ids (the primary key), every command
returned by the poll endpoint is addressed to the polled device, was PENDING,
and has expires_at strictly in the future (an expired command is never
returned); it is transitioned to SENT in the resulting table; and after any
further chain of polls it is never returned again by any poll for any
device. -/
theorem poll_commands_spec (now : Int) (aid : String) (s : List Command)
    (hnd : (s.map Command.id).Nodup) (c : Command)
    (hc : c ∈ (poll_commands now aid s).1) :
    c.device_id = aid ∧ c.status = "PENDING" ∧ now < c.expires_at ∧
    { c with status := "SENT" } ∈ (poll_commands now aid s).2 ∧
    ∀ (ps : List (Int × String)) (now2 : Int) (aid2 : String),
      c.id ∉ ((poll_commands now2 aid2
        (applyPolls ps (poll_commands now aid s).2)).1.map Command.id) := by
  obtain ⟨hcs, hflt⟩ := List.mem_filter.mp hc
  obtain ⟨h1, h2, h3⟩ := pollFilter_eq_true hflt
  refine ⟨h1, h2, h3, ?_, ?_⟩
  · refine List.mem_map.mpr ⟨c, hcs, ?_⟩
    rw [if_pos hflt]
  · have hP : notPendingFor c.id (poll_commands now aid s).2 := by
      intro d hd hid
      rcases List.mem_map.mp hd with ⟨c0, hc0, hdc⟩
      by_cases hf : pollFilter now aid c0 = true
      · rw [if_pos hf] at hdc
        rw [← hdc]
        show ("SENT" : String) ≠ "PENDING"
        decide
      · rw [if_neg hf] at hdc
        rw [← hdc] at hid ⊢
        have hc0c : c0 = c := List.inj_on_of_nodup_map hnd hc0 hcs hid
        rw [hc0c] at hf
        exact absurd hflt hf
    intro ps now2 aid2
    exact not_returned_of_notPending c.id now2 aid2 _
      (notPendingFor_applyPolls c.id ps _ hP)

/-- A concrete unexpired PENDING command for the poll witness. -/
def cmd0 : Command := ⟨"c0", "dev", "LOCK", "PENDING", 10, none⟩

/-- C8 witness: polling the one-command store at time 0 returns cmd0, marks it
SENT, and a second poll at time 5 does not return it. -/
theorem poll_commands_spec_witness :
    cmd0 ∈ (poll_commands 0 "dev" [cmd0]).1 ∧
    cmd0.device_id = "dev" ∧ cmd0.status = "PENDING" ∧
    (0 : Int) < cmd0.expires_at ∧
    { cmd0 with status := "SENT" } ∈ (poll_commands 0 "dev" [cmd0]).2 ∧
    cmd0.id ∉ ((poll_commands 5 "dev"
      (applyPolls [] (poll_commands 0 "dev" [cmd0]).2)).1.map Command.id) := by
  have h := poll_commands_spec 0 "dev" [cmd0] (by decide) cmd0 (by decide)
  exact ⟨by decide, h.1, h.2.1, h.2.2.1, h.2.2.2.1, h.2.2.2.2 [] 5 "dev"⟩

/-! Verified command execution (C10). -/

/-- C10: a command that passes verification is processed (acked rather than
skipped); the OS action (subprocess.run) is invoked exactly when the action
field is LOCK; every verified command with a different action is acked FAILED
without touching the OS; and a LOCK command whose subprocess call does not
raise is acked EXECUTED. -/
theorem process_command_spec (H : String → String → String)
    (secret aid : String) (ok : Bool) (cmd : AgentCmd)
    (hv : verify_command H secret aid cmd = true) :
    processCommand H secret aid ok cmd =
      some (runAction ok (cmd.action.getD "")) ∧
    ((runAction ok (cmd.action.getD "")).1 = true ↔
      cmd.action.getD "" = "LOCK") ∧
    (cmd.action.getD "" ≠ "LOCK" →
      (runAction ok (cmd.action.getD "")).2 = "FAILED") ∧
    (cmd.action.getD "" = "LOCK" → ok = true →
      (runAction ok (cmd.action.getD "")).2 = "EXECUTED") := by
  refine ⟨?_, ?_, ?_, ?_⟩
  · unfold processCommand
    rw [if_pos hv]
  · by_cases ha : cmd.action.getD "" = "LOCK" <;> simp [runAction, ha]
  · intro ha
    simp [runAction, ha]
  · intro ha hok
    simp [runAction, ha, hok]

/-- A concrete verified LOCK command for the execution witness. -/
def cmdL : AgentCmd :=
  ⟨some "c1", some "LOCK", some "t1",
   some (sign_command Hc "sec" "c1" "dev" "LOCK" "t1")⟩

/-- C10 witness: the verified LOCK command cmdL, with the subprocess call
succeeding, invokes the OS action and is acked EXECUTED. -/
theorem process_command_spec_witness :
    verify_command Hc "sec" "dev" cmdL = true ∧
    (processCommand Hc "sec" "dev" true cmdL =
       some (runAction true (cmdL.action.getD "")) ∧
     ((runAction true (cmdL.action.getD "")).1 = true ↔
       cmdL.action.getD "" = "LOCK") ∧
     (cmdL.action.getD "" ≠ "LOCK" →
       (runAction true (cmdL.action.getD "")).2 = "FAILED") ∧
     (cmdL.action.getD "" = "LOCK" → true = true →
       (runAction true (cmdL.action.getD "")).2 = "EXECUTED")) :=
  ⟨by decide, process_command_spec Hc "sec" "dev" true cmdL (by decide)⟩

end IVECGuard
